import Mathlib

/-!
# terraform-credentials-vault: a shallow embedding of `main.go`

The helper is a straight-line program: it resolves a base path, dispatches on
the verb, resolves a Vault token, performs one read and prints a JSON object.
Everything the program obtains from outside its own source (process inputs,
the Vault client, the token helper, the `svchost` hostname functions and the
`%#v` rendering of `fmt`) is a field of `World`; a run of `main` is the pure function `run : World → Run`
giving the exit status, the bytes written to the two output streams and the
sequence of calls made to the outside.

The model starts after `flag.Parse()` has returned: an invocation is the value
of `--vault-path` (when given) and the positional arguments `flag.Args()`.
Go strings are modelled by Lean strings (valid UTF-8 only) and a Go `error`
by `Option String` (`none` is `nil`, `some msg` an error whose `Error()` is
`msg`).
-/

namespace VaultHelper

/-! ## Values decoded from a Vault response -/

/-- A value held in `secret.Data`, as the Vault client decodes JSON: `nil`,
`bool`, `json.Number`, `string`, `[]interface{}` and `map[string]interface{}`.
A map is represented by its entries listed in increasing key order, which is
the order in which `fmt` prints them. -/
inductive GoValue where
  | nil : GoValue
  | bool (b : Bool) : GoValue
  | number (digits : String) : GoValue
  | str (s : String) : GoValue
  | slice (xs : List GoValue) : GoValue
  | map (entries : List (String × GoValue)) : GoValue

/-- Index expression `m[k]` on a `map[string]interface{}`: the zero value
(`nil`) when the key is absent. -/
def mapIndex (m : List (String × GoValue)) (k : String) : GoValue :=
  match m.lookup k with
  | some v => v
  | none => GoValue.nil

mutual
/-- Text of `fmt.Sprintf("%v", v)`. -/
def sprintV : GoValue → String
  | .nil => "<nil>"
  | .bool true => "true"
  | .bool false => "false"
  | .number d => d
  | .str s => s
  | .slice xs => "[" ++ sprintVSlice xs ++ "]"
  | .map es => "map[" ++ sprintVEntries es ++ "]"
/-- Elements of a slice under `%v`, separated by one space. -/
def sprintVSlice : List GoValue → String
  | [] => ""
  | [x] => sprintV x
  | x :: y :: rest => sprintV x ++ " " ++ sprintVSlice (y :: rest)
/-- Entries of a map under `%v`, written `key:value` and separated by one space. -/
def sprintVEntries : List (String × GoValue) → String
  | [] => ""
  | [(k, v)] => k ++ ":" ++ sprintV v
  | (k, v) :: e :: rest => k ++ ":" ++ sprintV v ++ " " ++ sprintVEntries (e :: rest)
end

/-- Text of `fmt.Sprintf("%T", v)`. -/
def sprintT : GoValue → String
  | .nil => "<nil>"
  | .bool _ => "bool"
  | .number _ => "json.Number"
  | .str _ => "string"
  | .slice _ => "[]interface \x7b\x7d"
  | .map _ => "map[string]interface \x7b\x7d"

/-! ## `errors.Wrap` and `json.Marshal` -/

/-- The function `errors.Wrap` of `github.com/pkg/errors`: wrapping `nil`
gives `nil`; otherwise the message is put in front of the cause. -/
def wrap (err : Option String) (message : String) : Option String :=
  match err with
  | none => none
  | some cause => some (message ++ ": " ++ cause)

/-- Lower-case hexadecimal digit, as in the table `hex` of `encoding/json`. -/
def hexDigit (n : Nat) : Char :=
  "0123456789abcdef".data.getD n '0'

/-- Whether `encoding/json` copies the character unchanged when HTML escaping
is on (the table `htmlSafeSet` for ASCII; every other character except the
two line separators U+2028 and U+2029). -/
def jsonSafe (c : Char) : Bool :=
  if c.toNat < 0x80 then
    0x20 ≤ c.toNat && c != '"' && c != '&' && c != '<' && c != '>' && c != '\\'
  else
    c.toNat != 0x2028 && c.toNat != 0x2029

/-- What `encoding/json` writes for one character of a string (Go 1.22 and
later, HTML escaping on as in `json.Marshal`). -/
def jsonEscapeChar (c : Char) : List Char :=
  if jsonSafe c then [c]
  else if c.toNat < 0x80 then
    if c = '\\' ∨ c = '"' then ['\\', c]
    else if c.toNat = 8 then ['\\', 'b']
    else if c.toNat = 12 then ['\\', 'f']
    else if c = '\n' then ['\\', 'n']
    else if c = '\r' then ['\\', 'r']
    else if c = '\t' then ['\\', 't']
    else ['\\', 'u', '0', '0', hexDigit (c.toNat / 16), hexDigit (c.toNat % 16)]
  else ['\\', 'u', '2', '0', '2', hexDigit (c.toNat % 16)]

/-- A Go string as a JSON string literal. -/
def jsonString (s : String) : String :=
  String.mk ('"' :: (s.data.flatMap jsonEscapeChar ++ ['"']))

/-- The bytes of `json.Marshal(resultJSON{token})`: the struct has the single
field `Token` tagged `json:"token"`. Marshalling such a struct cannot fail. -/
def marshalResultJSON (token : String) : String :=
  "\x7b\"token\":" ++ jsonString token ++ "\x7d"

/-! ## The outside world -/

/-- Result of `client.Logical().Read(path)`: an error, no secret at all
(`nil, nil`), or a secret with its `Data` map. -/
inductive ReadResult where
  | failure (err : String) : ReadResult
  | noSecret : ReadResult
  | secret (data : List (String × GoValue)) : ReadResult

/-- A call the program makes to one of its collaborators. -/
inductive Event where
  | readEnvironment : Event
  | newClient : Event
  | newTokenHelper : Event
  | helperGet : Event
  | setToken (token : String) : Event
  | read (path : String) (token : String) : Event
  deriving DecidableEq

/-- Everything one invocation obtains from outside `main.go`. -/
structure World where
  /-- Value of `--vault-path` when the flag is on the command line. -/
  flagVaultPath : Option String
  /-- Value of `os.Getenv("TF_TOKEN_VAULT_PATH")`, the default of the flag. -/
  envVaultPath : String
  /-- Positional arguments, `flag.Args()`. -/
  args : List String
  /-- Error returned by `config.ReadEnvironment()`. -/
  readEnvironment : Option String
  /-- Outcome of `api.NewClient(config)`: an error, or a client whose
  `Token()` is the token found in the environment. -/
  newClient : Except String String
  /-- Error returned by `token.NewInternalTokenHelper()`. -/
  newTokenHelper : Option String
  /-- The two results of `helper.Get()`. -/
  helperGet : String × Option String
  /-- Outcome of `client.Logical().Read(path)` with the client token set. -/
  read : String → String → ReadResult
  /-- The function `svchost.ForDisplay`. -/
  ForDisplay : String → String
  /-- The function `svchost.ForComparison`. -/
  ForComparison : String → Except String String
  /-- Text of `fmt.Sprintf("%#v", v)`. -/
  sharpV : GoValue → String

/-- Observable outcome of one invocation. -/
structure Run where
  /-- Argument of the `os.Exit` call that ends the run. -/
  exit : Nat
  /-- Bytes written to standard output, in order. -/
  stdout : String
  /-- Bytes written to standard error, in order. -/
  stderr : String
  /-- Calls made to the collaborators, in order. -/
  trace : List Event
  deriving DecidableEq

/-- Outcome of `readSecretFromVault`: its two results, what it printed on
standard output and the calls it made. -/
structure Retrieval where
  /-- First result. -/
  secret : String
  /-- Second result. -/
  err : Option String
  /-- Bytes printed with `fmt.Println` and `fmt.Printf`. -/
  stdout : String
  /-- Calls made to the collaborators, in order. -/
  trace : List Event
  deriving DecidableEq

/-! ## The program -/

/-- Value of `*vaultBasePath` after `flag.Parse()`. -/
def vaultBasePath (w : World) : String :=
  match w.flagVaultPath with
  | some p => p
  | none => w.envVaultPath

/-- The two lines `usage` prints on standard error before `os.Exit(1)`. -/
def usageText : String :=
  "Usage: terraform-credentials-vault --vault-path <base secrets kv path> get <hostname>\n" ++
  "\nThis is a Terraform credentials helper, not intended to be run directly from a shell.\n"

/-- The function `usage`: continues the run that has written `stderr` so far. -/
def usage (stderr : String) : Run :=
  { exit := 1, stdout := "", stderr := stderr ++ usageText, trace := [] }

/-- The function `readSecretFromVault`. -/
def readSecretFromVault (w : World) (secretPath : String) : Retrieval :=
  match w.readEnvironment with
  | some e =>
    { secret := "", err := wrap (some e) "failed to read environment", stdout := "",
      trace := [.readEnvironment] }
  | none =>
  match w.newClient with
  | .error e =>
    { secret := "", err := wrap (some e) "failed to create client", stdout := "",
      trace := [.readEnvironment, .newClient] }
  | .ok envToken =>
  -- `err` of `client, err := api.NewClient(config)`, known to be nil from here on
  let err : Option String := none
  let t0 : List Event := [.readEnvironment, .newClient]
  -- the `if clientToken == ""` block declares an `err` of its own
  let resolved : Except Retrieval (String × List Event) :=
    if envToken = "" then
      match w.newTokenHelper with
      | some e =>
        .error { secret := "", err := wrap (some e) "failed to get token helper", stdout := "",
                 trace := t0 ++ [.newTokenHelper] }
      | none =>
        match w.helperGet with
        | (_, some e) =>
          .error { secret := "", err := wrap (some e) "failed to get token from token helper",
                   stdout := "", trace := t0 ++ [.newTokenHelper, .helperGet] }
        | (helperToken, none) => .ok (helperToken, t0 ++ [.newTokenHelper, .helperGet])
    else .ok (envToken, t0)
  match resolved with
  | .error r => r
  | .ok (clientToken, t1) =>
  if clientToken ≠ "" then
    let t2 := t1 ++ [.setToken clientToken, .read secretPath clientToken]
    match w.read secretPath clientToken with
    | .failure e =>
      { secret := "",
        err := wrap (some e) ("failed to read secret from Vault at " ++ secretPath ++ "\n"),
        stdout := "in if err == nil\n", trace := t2 }
    | .noSecret =>
      { secret := "", err := some ("no secret data returned from path=" ++ secretPath),
        stdout := "", trace := t2 }
    | .secret data =>
      match mapIndex data "data" with
      | .map m =>
        let s := sprintV (mapIndex m "token")
        if s = "" then
          { secret := "",
            err := some ("no secret data at =" ++ secretPath ++
                         " does not contain a token attribute or its empty"),
            stdout := "", trace := t2 }
        else { secret := s, err := none, stdout := "", trace := t2 }
      | v =>
        { secret := "", err := none,
          stdout := sprintT v ++ " " ++ w.sharpV v ++ "\n", trace := t2 }
  else
    { secret := "",
      err := wrap err "failed to get token from environment or credential helper",
      stdout := "", trace := t1 }

/-- The function `generateTokenMap`; the map it returns is the list of its
entries. -/
def generateTokenMap (w : World) (hostname : String) (token : String) :
    Except String (List (String × String)) :=
  let dispHost := w.ForDisplay hostname
  match w.ForComparison dispHost with
  | .error e => .error ("failed to convert hostname: " ++ e)
  | .ok wantedHost => .ok [(wantedHost, token)]

/-- The function `main`, from the return of `flag.Parse()` to `os.Exit`. -/
def run (w : World) : Run :=
  if vaultBasePath w = "" then
    usage "Error: --vault-path or TF_TOKEN_VAULT_PATH not set.\n\n"
  else
  let values := w.args
  if values.length < 2 then usage ""
  else
  let verb := values.getD 0 ""
  if verb = "get" then
    let hostname := values.getD 1 ""
    let wantedHost := hostname
    let secretPath := vaultBasePath w ++ "/" ++ hostname
    let r := readSecretFromVault w secretPath
    match r.err with
    | some e =>
      { exit := 1, stdout := r.stdout,
        stderr := "Unable to read secret from Vault: " ++ e, trace := r.trace }
    | none =>
    match generateTokenMap w hostname r.secret with
    | .error e =>
      { exit := 1, stdout := r.stdout, stderr := "unable to generate " ++ e, trace := r.trace }
    | .ok creds =>
    match creds.lookup wantedHost with
    | none =>
      { exit := 0, stdout := r.stdout ++ "\x7b\x7d\n", stderr := "", trace := r.trace }
    | some token =>
      { exit := 0, stdout := r.stdout ++ marshalResultJSON token ++ "\n", stderr := "",
        trace := r.trace }
  else
    { exit := 1, stdout := "",
      stderr := "The \x27vault\x27 credentials helper is not able to " ++ verb ++
                " credentials.\n",
      trace := [] }

/-! ## Example worlds -/

/-- Stand-in for `svchost.ForDisplay` in the example worlds: on a host name of
ASCII letters, digits, inner hyphens and single dots, without a port, the
library folds the case and changes nothing else. -/
def asciiForDisplay (given : String) : String :=
  String.mk (given.data.map Char.toLower)

/-- Stand-in for `svchost.ForComparison` in the example worlds: the library
rejects the empty string and, on a host name as above, folds the case. -/
def asciiForComparison (given : String) : Except String String :=
  if given = "" then .error "empty string is not a valid hostname"
  else .ok (String.mk (given.data.map Char.toLower))

/-- Stand-in for `%#v` in the example worlds, exact on `nil`, booleans,
numbers and strings of printable ASCII without quote or backslash, and on
empty slices and maps. -/
def plainSharpV : GoValue → String
  | .nil => "<nil>"
  | .bool true => "true"
  | .bool false => "false"
  | .number d => "\"" ++ d ++ "\""
  | .str s => "\"" ++ s ++ "\""
  | v => sprintT v ++ "\x7b\x7d"

/-- An invocation `--vault-path secret/data/tf get app.terraform.io` with a
token in the environment; the store answers every read with `answer`. -/
def worldWith (answer : ReadResult) : World :=
  { flagVaultPath := some "secret/data/tf"
    envVaultPath := ""
    args := ["get", "app.terraform.io"]
    readEnvironment := none
    newClient := .ok "s.vaulttoken"
    newTokenHelper := none
    helperGet := ("", none)
    read := fun _ _ => answer
    ForDisplay := asciiForDisplay
    ForComparison := asciiForComparison
    sharpV := plainSharpV }

/-- The store holds the token `tfe-abc123` for the host. -/
def storedToken : ReadResult :=
  .secret [("data", .map [("token", .str "tfe-abc123")]), ("metadata", .map [])]

/-- The same invocation without `--vault-path` and with an empty
`TF_TOKEN_VAULT_PATH`. -/
def worldNoPath : World :=
  { worldWith storedToken with flagVaultPath := none, envVaultPath := "" }

/-- The invocation `--vault-path secret/data/tf store`: a verb and no host. -/
def worldStoreOnly : World :=
  { worldWith storedToken with args := ["store"] }

/-- The invocation `--vault-path secret/data/tf store app.terraform.io`. -/
def worldStore : World :=
  { worldWith storedToken with args := ["store", "app.terraform.io"] }

/-- No token in the environment; the token helper returns `helper`. -/
def worldHelper (helper : String × Option String) : World :=
  { worldWith storedToken with newClient := .ok "", helperGet := helper }

/-- The host is given as `Example.COM`, which is not its comparison form. -/
def worldUpperHost : World :=
  { worldWith storedToken with args := ["get", "Example.COM"] }

/-- The store holds a token containing a double quote. -/
def worldQuoteToken : World :=
  worldWith (.secret [("data", .map [("token", .str "a\"b")])])

/-- The store holds the empty string as token. -/
def worldBlankToken : World :=
  worldWith (.secret [("data", .map [("token", .str "")])])

/-- The `data` map of the secret has no `token` entry. -/
def worldNoTokenEntry : World :=
  worldWith (.secret [("data", .map [("username", .str "terraform")])])

/-- The secret has no `data` entry. -/
def worldNoData : World :=
  worldWith (.secret [])

/-- The secret has no `data` entry and the host given is the empty string,
which `svchost.ForComparison` rejects. -/
def worldNoDataNoHost : World :=
  { worldWith (.secret []) with args := ["get", ""] }

/-- The secret has no `data` entry and the host is given as `Example.COM`. -/
def worldNoDataUpperHost : World :=
  { worldWith (.secret []) with args := ["get", "Example.COM"] }

/-- The read fails. -/
def worldReadFails : World :=
  worldWith (.failure "connection refused")

/-! ## Vocabulary of the statements -/

/-- Whether `needle` occurs in `hay` as a block of consecutive characters. -/
def occursIn (needle : List Char) : List Char → Bool
  | [] => needle.isPrefixOf []
  | c :: cs => needle.isPrefixOf (c :: cs) || occursIn needle cs

/-- Authentication succeeds with the token `tok`: the environment is read and
the client created without error, and either the client carries the non-empty
token `tok` from the environment, or it carries none and the token helper is
obtained and returns the non-empty token `tok` without error. -/
def Authenticates (w : World) (tok : String) : Prop :=
  w.readEnvironment = none ∧ tok ≠ "" ∧
    (w.newClient = .ok tok ∨
      (w.newClient = .ok "" ∧ w.newTokenHelper = none ∧ w.helperGet = (tok, none)))

/-- The calls made up to and including the read when authentication succeeds
with `tok`. -/
def callsUntilRead (w : World) (secretPath tok : String) : List Event :=
  (match w.newClient with
   | .ok envToken =>
     if envToken = "" then [Event.readEnvironment, .newClient, .newTokenHelper, .helperGet]
     else [Event.readEnvironment, .newClient]
   | .error _ => [Event.readEnvironment, .newClient]) ++
    [.setToken tok, .read secretPath tok]

/-! ## Auxiliary facts -/

theorem occursIn_of_infix (needle hay : List Char) (h : needle <:+: hay) :
    occursIn needle hay = true := by
  induction hay with
  | nil =>
    have : needle = [] := List.eq_nil_of_infix_nil h
    subst this
    rfl
  | cons c cs ih =>
    rcases List.infix_cons_iff.mp h with hp | hi
    · simp [occursIn, List.isPrefixOf_iff_prefix.mpr hp]
    · simp [occursIn, ih hi]

theorem run_no_path (w : World) (h : vaultBasePath w = "") :
    run w = usage "Error: --vault-path or TF_TOKEN_VAULT_PATH not set.\n\n" := by
  simp [run, h]

theorem run_short_args (w : World) (hP : vaultBasePath w ≠ "") (h : w.args.length < 2) :
    run w = usage "" := by
  simp [run, hP, h]

theorem run_other_verb (w : World) (V H : String) (rest : List String)
    (hP : vaultBasePath w ≠ "") (hargs : w.args = V :: H :: rest) (hV : V ≠ "get") :
    run w = { exit := 1, stdout := "",
              stderr := "The \x27vault\x27 credentials helper is not able to " ++ V ++
                        " credentials.\n",
              trace := [] } := by
  simp [run, hP, hargs, hV]

/-- A failed retrieval ends the run with status 1. -/
theorem run_get_err (w : World) (H e : String) (rest : List String)
    (hP : vaultBasePath w ≠ "") (hargs : w.args = "get" :: H :: rest)
    (he : (readSecretFromVault w (vaultBasePath w ++ "/" ++ H)).err = some e) :
    run w = { exit := 1,
              stdout := (readSecretFromVault w (vaultBasePath w ++ "/" ++ H)).stdout,
              stderr := "Unable to read secret from Vault: " ++ e,
              trace := (readSecretFromVault w (vaultBasePath w ++ "/" ++ H)).trace } := by
  simp [run, hP, hargs, he]

/-- A host name that `svchost` rejects ends the run with status 1. -/
theorem run_get_bad_host (w : World) (H e : String) (rest : List String)
    (hP : vaultBasePath w ≠ "") (hargs : w.args = "get" :: H :: rest)
    (he : (readSecretFromVault w (vaultBasePath w ++ "/" ++ H)).err = none)
    (hH : w.ForComparison (w.ForDisplay H) = .error e) :
    run w = { exit := 1,
              stdout := (readSecretFromVault w (vaultBasePath w ++ "/" ++ H)).stdout,
              stderr := "unable to generate " ++ ("failed to convert hostname: " ++ e),
              trace := (readSecretFromVault w (vaultBasePath w ++ "/" ++ H)).trace } := by
  simp [run, hP, hargs, he, generateTokenMap, hH]

/-- The requested host is not the key of the token map: empty object. -/
theorem run_get_miss (w : World) (H K : String) (rest : List String)
    (hP : vaultBasePath w ≠ "") (hargs : w.args = "get" :: H :: rest)
    (he : (readSecretFromVault w (vaultBasePath w ++ "/" ++ H)).err = none)
    (hH : w.ForComparison (w.ForDisplay H) = .ok K) (hK : K ≠ H) :
    run w = { exit := 0,
              stdout := (readSecretFromVault w (vaultBasePath w ++ "/" ++ H)).stdout ++
                        "\x7b\x7d\n",
              stderr := "",
              trace := (readSecretFromVault w (vaultBasePath w ++ "/" ++ H)).trace } := by
  have hb : (H == K) = false := by
    simp only [beq_eq_false_iff_ne, ne_eq]
    exact fun h => hK h.symm
  simp [run, hP, hargs, he, generateTokenMap, hH, List.lookup, hb]

/-- The requested host is the key of the token map: the token is printed. -/
theorem run_get_hit (w : World) (H : String) (rest : List String)
    (hP : vaultBasePath w ≠ "") (hargs : w.args = "get" :: H :: rest)
    (he : (readSecretFromVault w (vaultBasePath w ++ "/" ++ H)).err = none)
    (hH : w.ForComparison (w.ForDisplay H) = .ok H) :
    run w = { exit := 0,
              stdout := (readSecretFromVault w (vaultBasePath w ++ "/" ++ H)).stdout ++
                        marshalResultJSON
                          (readSecretFromVault w (vaultBasePath w ++ "/" ++ H)).secret ++ "\n",
              stderr := "",
              trace := (readSecretFromVault w (vaultBasePath w ++ "/" ++ H)).trace } := by
  simp [run, hP, hargs, he, generateTokenMap, hH, List.lookup]

/-- With authentication done, a failing read is reported after a line has been
printed on standard output. -/
theorem retrieval_failure (w : World) (p tok e : String) (hA : Authenticates w tok)
    (hr : w.read p tok = .failure e) :
    readSecretFromVault w p =
      { secret := "",
        err := some ("failed to read secret from Vault at " ++ p ++ "\n" ++ ": " ++ e),
        stdout := "in if err == nil\n", trace := callsUntilRead w p tok } := by
  obtain ⟨h1, hne, h | ⟨h2, h3, h4⟩⟩ := hA <;>
    simp [readSecretFromVault, callsUntilRead, wrap, *]

/-- With authentication done, a read that returns no secret is an error. -/
theorem retrieval_noSecret (w : World) (p tok : String) (hA : Authenticates w tok)
    (hr : w.read p tok = .noSecret) :
    readSecretFromVault w p =
      { secret := "", err := some ("no secret data returned from path=" ++ p),
        stdout := "", trace := callsUntilRead w p tok } := by
  obtain ⟨h1, hne, h | ⟨h2, h3, h4⟩⟩ := hA <;>
    simp [readSecretFromVault, callsUntilRead, *]

/-- With authentication done and a `data` map whose `token` prints as a
non-empty text, that text is returned. -/
theorem retrieval_token (w : World) (p tok : String) (data m : List (String × GoValue))
    (hA : Authenticates w tok) (hr : w.read p tok = .secret data)
    (hd : mapIndex data "data" = .map m) (hs : sprintV (mapIndex m "token") ≠ "") :
    readSecretFromVault w p =
      { secret := sprintV (mapIndex m "token"), err := none, stdout := "",
        trace := callsUntilRead w p tok } := by
  obtain ⟨h1, hne, h | ⟨h2, h3, h4⟩⟩ := hA <;>
    simp [readSecretFromVault, callsUntilRead, *]

/-- With authentication done and a `data` map whose `token` prints as the
empty text, an error is returned. -/
theorem retrieval_empty_token (w : World) (p tok : String) (data m : List (String × GoValue))
    (hA : Authenticates w tok) (hr : w.read p tok = .secret data)
    (hd : mapIndex data "data" = .map m) (hs : sprintV (mapIndex m "token") = "") :
    readSecretFromVault w p =
      { secret := "",
        err := some ("no secret data at =" ++ p ++
                     " does not contain a token attribute or its empty"),
        stdout := "", trace := callsUntilRead w p tok } := by
  obtain ⟨h1, hne, h | ⟨h2, h3, h4⟩⟩ := hA <;>
    simp [readSecretFromVault, callsUntilRead, *]

/-- With authentication done and a `data` entry that is not a map, nothing is
returned, no error either, and one line is printed on standard output. -/
theorem retrieval_no_data (w : World) (p tok : String) (data : List (String × GoValue))
    (hA : Authenticates w tok) (hr : w.read p tok = .secret data)
    (hd : ∀ m, mapIndex data "data" ≠ .map m) :
    readSecretFromVault w p =
      { secret := "", err := none,
        stdout := sprintT (mapIndex data "data") ++ " " ++
                  w.sharpV (mapIndex data "data") ++ "\n",
        trace := callsUntilRead w p tok } := by
  obtain ⟨h1, hne, h | ⟨h2, h3, h4⟩⟩ := hA <;>
    cases hv : mapIndex data "data" <;>
    first
      | exact absurd hv (hd _)
      | simp [readSecretFromVault, callsUntilRead, *]

/-- In a `get` run with a base path, the calls are those of the retrieval. -/
theorem run_get_trace (w : World) (H : String) (rest : List String)
    (hP : vaultBasePath w ≠ "") (hargs : w.args = "get" :: H :: rest) :
    (run w).trace = (readSecretFromVault w (vaultBasePath w ++ "/" ++ H)).trace := by
  cases he : (readSecretFromVault w (vaultBasePath w ++ "/" ++ H)).err with
  | some e => rw [run_get_err w H e rest hP hargs he]
  | none =>
    cases hH : w.ForComparison (w.ForDisplay H) with
    | error e => rw [run_get_bad_host w H e rest hP hargs he hH]
    | ok K =>
      by_cases hK : K = H
      · subst hK
        rw [run_get_hit w K rest hP hargs he hH]
      · rw [run_get_miss w H K rest hP hargs he hH hK]

/-- Every read the retrieval performs is at the path it was given. -/
theorem retrieval_read_path (w : World) (sp p t : String)
    (h : Event.read p t ∈ (readSecretFromVault w sp).trace) : p = sp := by
  unfold readSecretFromVault at h
  repeat' split at h
  all_goals try simp only [] at h
  all_goals repeat' split at h
  all_goals simp_all

/-- With authentication done, the calls end with the read at the given path. -/
theorem retrieval_trace (w : World) (p tok : String) (hA : Authenticates w tok) :
    (readSecretFromVault w p).trace = callsUntilRead w p tok := by
  cases hr : w.read p tok with
  | failure e => rw [retrieval_failure w p tok e hA hr]
  | noSecret => rw [retrieval_noSecret w p tok hA hr]
  | secret data =>
    by_cases hm : ∃ m, mapIndex data "data" = .map m
    · obtain ⟨m, hd⟩ := hm
      by_cases hs : sprintV (mapIndex m "token") = ""
      · rw [retrieval_empty_token w p tok data m hA hr hd hs]
      · rw [retrieval_token w p tok data m hA hr hd hs]
    · rw [retrieval_no_data w p tok data hA hr (fun m hd => hm ⟨m, hd⟩)]

/-- Characters that `encoding/json` copies unchanged are left as they are. -/
theorem flatMap_jsonEscapeChar_of_safe (l : List Char) (h : l.all jsonSafe = true) :
    l.flatMap jsonEscapeChar = l := by
  induction l with
  | nil => rfl
  | cons c cs ih =>
    simp only [List.all_cons, Bool.and_eq_true] at h
    simp [List.flatMap_cons, jsonEscapeChar, h.1, ih h.2]

/-- A token without any character to escape is marshalled verbatim. -/
theorem marshalResultJSON_of_safe (T : String) (h : T.data.all jsonSafe = true) :
    marshalResultJSON T = "\x7b\"token\":\"" ++ T ++ "\"\x7d" := by
  apply String.ext
  simp [marshalResultJSON, jsonString, String.data_append, flatMap_jsonEscapeChar_of_safe _ h]

/-! ## Claims -/

/-- C10: when the base path is empty (neither `--vault-path` nor
`TF_TOKEN_VAULT_PATH` gives one), whatever the positional arguments, the run
writes the error line and the usage text to standard error, exits with status
1, writes nothing to standard output and calls no collaborator, so no read. -/
theorem C10_missing_base_path (w : World) (h : vaultBasePath w = "") :
    run w = { exit := 1, stdout := "",
              stderr := "Error: --vault-path or TF_TOKEN_VAULT_PATH not set.\n\n" ++ usageText,
              trace := [] } := by
  rw [run_no_path w h, usage]

theorem C10_missing_base_path_witness :
    worldNoPath.flagVaultPath = none ∧ worldNoPath.envVaultPath = "" ∧
    run worldNoPath =
      { exit := 1, stdout := "",
        stderr := "Error: --vault-path or TF_TOKEN_VAULT_PATH not set.\n\n" ++ usageText,
        trace := [] } :=
  ⟨rfl, rfl, C10_missing_base_path worldNoPath rfl⟩

set_option maxRecDepth 8192 in
/-- C9 as stated fails: for `store` given alone, the first positional argument
is not `get`, the run exits with status 1, and standard error holds the usage
text, in which `store` does not occur. -/
theorem C9_counterexample :
    worldStoreOnly.args = ["store"] ∧ "store" ≠ "get" ∧
    run worldStoreOnly = { exit := 1, stdout := "", stderr := usageText, trace := [] } ∧
    ¬ ("store".data <:+: (run worldStoreOnly).stderr.data) := by
  refine ⟨rfl, by decide, rfl, fun h => ?_⟩
  have h2 := occursIn_of_infix _ _ h
  revert h2
  decide

/-- C9, amended: when the first positional argument `V` is not `get`, the run
exits with status 1, writes nothing to standard output and calls no
collaborator (no authentication, no read); when moreover the base path is not
empty and a second positional argument is given, standard error holds exactly
the line naming `V`, so `V` occurs in it. -/
theorem C9_unsupported_verb (w : World) (V : String) (rest : List String)
    (hargs : w.args = V :: rest) (hV : V ≠ "get") :
    (run w).exit = 1 ∧ (run w).stdout = "" ∧ (run w).trace = [] ∧
    (vaultBasePath w ≠ "" → rest ≠ [] →
      (run w).stderr =
          "The \x27vault\x27 credentials helper is not able to " ++ V ++ " credentials.\n" ∧
        V.data <:+: (run w).stderr.data) := by
  by_cases hP : vaultBasePath w = ""
  · rw [run_no_path w hP]
    exact ⟨rfl, rfl, rfl, fun h => absurd hP h⟩
  · cases rest with
    | nil =>
      rw [run_short_args w hP (by simp [hargs])]
      exact ⟨rfl, rfl, rfl, fun _ h => absurd rfl h⟩
    | cons H rest =>
      rw [run_other_verb w V H rest hP hargs hV]
      refine ⟨rfl, rfl, rfl, fun _ _ => ⟨rfl, ?_⟩⟩
      refine ⟨"The \x27vault\x27 credentials helper is not able to ".data,
        " credentials.\n".data, ?_⟩
      simp [String.data_append]

theorem C9_unsupported_verb_witness :
    (run worldStore).exit = 1 ∧ (run worldStore).stdout = "" ∧ (run worldStore).trace = [] ∧
    (vaultBasePath worldStore ≠ "" → ["app.terraform.io"] ≠ [] →
      (run worldStore).stderr =
          "The \x27vault\x27 credentials helper is not able to " ++ "store" ++
            " credentials.\n" ∧
        "store".data <:+: (run worldStore).stderr.data) :=
  C9_unsupported_verb worldStore "store" ["app.terraform.io"] rfl (by decide)

/-- C7: in a run `get H`, every read performed is at the path made of the base
path, one `/` and the host `H` as given on the command line; and when the base
path is not empty and authentication succeeds with `tok`, the calls made are
exactly those up to one read at that path under `tok`. -/
theorem C7_secret_path (w : World) (H : String) (rest : List String)
    (hargs : w.args = "get" :: H :: rest) :
    (∀ p t, Event.read p t ∈ (run w).trace → p = vaultBasePath w ++ "/" ++ H) ∧
    (∀ tok, vaultBasePath w ≠ "" → Authenticates w tok →
      (run w).trace = callsUntilRead w (vaultBasePath w ++ "/" ++ H) tok ∧
      Event.read (vaultBasePath w ++ "/" ++ H) tok ∈ (run w).trace) := by
  constructor
  · intro p t h
    by_cases hP : vaultBasePath w = ""
    · rw [run_no_path w hP] at h
      simp [usage] at h
    · rw [run_get_trace w H rest hP hargs] at h
      exact retrieval_read_path w _ p t h
  · intro tok hP hA
    rw [run_get_trace w H rest hP hargs, retrieval_trace w _ tok hA]
    refine ⟨rfl, ?_⟩
    simp [callsUntilRead]

theorem C7_secret_path_witness :
    (∀ p t, Event.read p t ∈ (run (worldWith storedToken)).trace →
      p = "secret/data/tf" ++ "/" ++ "app.terraform.io") ∧
    (run (worldWith storedToken)).trace =
      [.readEnvironment, .newClient, .setToken "s.vaulttoken",
       .read "secret/data/tf/app.terraform.io" "s.vaulttoken"] :=
  ⟨(C7_secret_path (worldWith storedToken) "app.terraform.io" [] rfl).1,
   ((C7_secret_path (worldWith storedToken) "app.terraform.io" [] rfl).2 "s.vaulttoken"
      (by decide) ⟨rfl, by decide, Or.inl rfl⟩).1⟩

/-- C8: token resolution is an ordered fallback. With the client created and
`E` the token from the environment: if `E` is not empty, the token set on the
client and used for the read is `E` and the token helper is not called; if `E`
is empty, any token set or used for a read is the one the helper returned
without error, and a non-empty helper token `C` is set and used for the read;
if obtaining the helper or its lookup returns an error, the retrieval returns
an error and performs no read. -/
theorem C8_token_fallback (w : World) (p E : String)
    (h1 : w.readEnvironment = none) (h2 : w.newClient = .ok E) :
    (E ≠ "" →
      (readSecretFromVault w p).trace =
        [.readEnvironment, .newClient, .setToken E, .read p E]) ∧
    (E = "" → ∀ q t, (Event.read q t ∈ (readSecretFromVault w p).trace ∨
        Event.setToken t ∈ (readSecretFromVault w p).trace) →
      w.newTokenHelper = none ∧ w.helperGet = (t, none)) ∧
    (E = "" → ∀ C, w.newTokenHelper = none → w.helperGet = (C, none) → C ≠ "" →
      (readSecretFromVault w p).trace =
        [.readEnvironment, .newClient, .newTokenHelper, .helperGet, .setToken C,
         .read p C]) ∧
    (E = "" → ∀ C e, w.newTokenHelper = none → w.helperGet = (C, some e) →
      (readSecretFromVault w p).err = some ("failed to get token from token helper: " ++ e) ∧
      (readSecretFromVault w p).trace =
        [.readEnvironment, .newClient, .newTokenHelper, .helperGet]) ∧
    (E = "" → ∀ e, w.newTokenHelper = some e →
      (readSecretFromVault w p).err = some ("failed to get token helper: " ++ e) ∧
      (readSecretFromVault w p).trace = [.readEnvironment, .newClient, .newTokenHelper]) := by
  refine ⟨fun hE => ?_, fun hE q t h => ?_, fun hE C h3 h4 hC => ?_,
    fun hE C e h3 h4 => ?_, fun hE e h3 => ?_⟩
  · have hA : Authenticates w E := ⟨h1, hE, Or.inl h2⟩
    rw [retrieval_trace w p E hA]
    simp [callsUntilRead, h2, hE]
  · subst hE
    cases h3 : w.newTokenHelper with
    | some e => simp [readSecretFromVault, h1, h2, h3] at h
    | none =>
      rcases h4 : w.helperGet with ⟨C, _ | e⟩
      · by_cases hC : C = ""
        · subst hC
          simp [readSecretFromVault, h1, h2, h3, h4] at h
        · have hA : Authenticates w C := ⟨h1, hC, Or.inr ⟨h2, h3, h4⟩⟩
          rw [retrieval_trace w p C hA] at h
          simp [callsUntilRead, h2] at h
          rcases h with ⟨_, rfl⟩ | rfl <;> exact ⟨rfl, rfl⟩
      · simp [readSecretFromVault, h1, h2, h3, h4] at h
  · subst hE
    have hA : Authenticates w C := ⟨h1, hC, Or.inr ⟨h2, h3, h4⟩⟩
    rw [retrieval_trace w p C hA]
    simp [callsUntilRead, h2]
  · subst hE
    simp [readSecretFromVault, h1, h2, h3, h4, wrap]
  · subst hE
    simp [readSecretFromVault, h1, h2, h3, wrap]

theorem C8_token_fallback_witness :
    (readSecretFromVault (worldWith storedToken) "secret/data/tf/app.terraform.io").trace =
      [.readEnvironment, .newClient, .setToken "s.vaulttoken",
       .read "secret/data/tf/app.terraform.io" "s.vaulttoken"] ∧
    (readSecretFromVault (worldHelper ("s.cached", none))
        "secret/data/tf/app.terraform.io").trace =
      [.readEnvironment, .newClient, .newTokenHelper, .helperGet, .setToken "s.cached",
       .read "secret/data/tf/app.terraform.io" "s.cached"] ∧
    (readSecretFromVault (worldHelper ("", some "permission denied"))
        "secret/data/tf/app.terraform.io").err =
      some ("failed to get token from token helper: " ++ "permission denied") ∧
    (readSecretFromVault (worldHelper ("", some "permission denied"))
        "secret/data/tf/app.terraform.io").trace =
      [.readEnvironment, .newClient, .newTokenHelper, .helperGet] :=
  ⟨(C8_token_fallback (worldWith storedToken) "secret/data/tf/app.terraform.io"
      "s.vaulttoken" rfl rfl).1 (by decide),
   (C8_token_fallback (worldHelper ("s.cached", none)) "secret/data/tf/app.terraform.io"
      "" rfl rfl).2.2.1 rfl "s.cached" rfl rfl (by decide),
   (C8_token_fallback (worldHelper ("", some "permission denied"))
      "secret/data/tf/app.terraform.io" "" rfl rfl).2.2.2.1 rfl "" "permission denied" rfl rfl⟩

/-- When the store returns a token that prints as a non-empty text and the
key of the token map differs from the host as given, standard output is
exactly the line of the empty object. -/
theorem run_token_miss (w : World) (H K tok : String) (rest : List String)
    (data m : List (String × GoValue))
    (hP : vaultBasePath w ≠ "") (hargs : w.args = "get" :: H :: rest)
    (hA : Authenticates w tok)
    (hr : w.read (vaultBasePath w ++ "/" ++ H) tok = .secret data)
    (hd : mapIndex data "data" = .map m) (hs : sprintV (mapIndex m "token") ≠ "")
    (hH : w.ForComparison (w.ForDisplay H) = .ok K) (hK : K ≠ H) :
    (run w).exit = 0 ∧ (run w).stdout = "\x7b\x7d\n" ∧ (run w).stderr = "" := by
  have hret := retrieval_token w _ tok data m hA hr hd hs
  have he : (readSecretFromVault w (vaultBasePath w ++ "/" ++ H)).err = none := by rw [hret]
  rw [run_get_miss w H K rest hP hargs he hH hK, hret]
  refine ⟨rfl, ?_, rfl⟩
  show "" ++ "\x7b\x7d\n" = "\x7b\x7d\n"
  rfl

/-- C6: the code does not do what the claim says. For the host `Example.COM`
and a secret without a `data` entry, `readSecretFromVault` returns no error,
`generateTokenMap` succeeds with the single key `example.com`, which is not
the host as given, and the run exits with status 0; but standard output holds
the line printed by `readSecretFromVault` before the line of the empty
object, so it is not exactly that line. -/
theorem C6_no_data_miss_run :
    (readSecretFromVault worldNoDataUpperHost "secret/data/tf/Example.COM").err = none ∧
    generateTokenMap worldNoDataUpperHost "Example.COM"
        (readSecretFromVault worldNoDataUpperHost "secret/data/tf/Example.COM").secret =
      .ok [("example.com", "")] ∧
    List.lookup "Example.COM" [("example.com", "")] = none ∧
    (run worldNoDataUpperHost).exit = 0 ∧
    (run worldNoDataUpperHost).stdout = "<nil> <nil>\n" ++ "\x7b\x7d\n" ∧
    (run worldNoDataUpperHost).stdout ≠ "\x7b\x7d\n" :=
  ⟨by decide, rfl, by decide, by decide, by decide, by decide⟩

/-- C4 as stated fails in three ways: a well-formed host that is not its own
comparison form gets the empty object; a token with a double quote is not
inserted verbatim; and an empty token ends the run with status 1 and no
output. -/
theorem C4_counterexample :
    (worldUpperHost.ForComparison (worldUpperHost.ForDisplay "Example.COM") =
        .ok "example.com" ∧
      run worldUpperHost =
        { exit := 0, stdout := "\x7b\x7d\n", stderr := "",
          trace := [.readEnvironment, .newClient, .setToken "s.vaulttoken",
                    .read "secret/data/tf/Example.COM" "s.vaulttoken"] } ∧
      (run worldUpperHost).stdout ≠ "\x7b\"token\":\"" ++ "tfe-abc123" ++ "\"\x7d\n") ∧
    ((run worldQuoteToken).exit = 0 ∧
      (run worldQuoteToken).stdout = "\x7b\"token\":\"a\\\"b\"\x7d\n" ∧
      (run worldQuoteToken).stdout ≠ "\x7b\"token\":\"" ++ "a\"b" ++ "\"\x7d\n") ∧
    ((run worldBlankToken).exit = 1 ∧ (run worldBlankToken).stdout = "") :=
  ⟨⟨rfl, by decide, by decide⟩, by decide, by decide⟩

/-- C4, amended: for a non-empty base path, a host `H` that is its own
comparison form and a non-empty token string `T`, when authentication
succeeds and the read at the path of `H` returns a secret whose `data` map
holds `token` = `T`, the run exits with status 0 and writes to standard output
exactly the JSON object whose `token` member is `T` as a JSON string literal,
followed by a newline; when `T` has no character that `encoding/json`
escapes, that is `T` verbatim between double quotes. -/
theorem C4_token_emitted (w : World) (H tok T : String) (rest : List String)
    (data m : List (String × GoValue))
    (hP : vaultBasePath w ≠ "") (hargs : w.args = "get" :: H :: rest)
    (hA : Authenticates w tok)
    (hr : w.read (vaultBasePath w ++ "/" ++ H) tok = .secret data)
    (hd : mapIndex data "data" = .map m) (htok : mapIndex m "token" = .str T)
    (hT : T ≠ "") (hH : w.ForComparison (w.ForDisplay H) = .ok H) :
    (run w).exit = 0 ∧ (run w).stderr = "" ∧
    (run w).stdout = "\x7b\"token\":" ++ jsonString T ++ "\x7d" ++ "\n" ∧
    (T.data.all jsonSafe = true →
      (run w).stdout = "\x7b\"token\":\"" ++ T ++ "\"\x7d" ++ "\n") := by
  have hsT : sprintV (mapIndex m "token") = T := by rw [htok]; simp [sprintV]
  have hs : sprintV (mapIndex m "token") ≠ "" := by rw [hsT]; exact hT
  have hret := retrieval_token w _ tok data m hA hr hd hs
  have he : (readSecretFromVault w (vaultBasePath w ++ "/" ++ H)).err = none := by rw [hret]
  rw [run_get_hit w H rest hP hargs he hH, hret, hsT]
  have h0 : ("" : String) ++ marshalResultJSON T = marshalResultJSON T := by
    apply String.ext
    simp [String.data_append]
  refine ⟨rfl, rfl, ?_, fun hsafe => ?_⟩
  · show "" ++ marshalResultJSON T ++ "\n" = _
    rw [h0]
    rfl
  · show "" ++ marshalResultJSON T ++ "\n" = _
    rw [h0, marshalResultJSON_of_safe T hsafe]

theorem C4_token_emitted_witness :
    (run (worldWith storedToken)).exit = 0 ∧ (run (worldWith storedToken)).stderr = "" ∧
    (run (worldWith storedToken)).stdout =
      "\x7b\"token\":" ++ jsonString "tfe-abc123" ++ "\x7d" ++ "\n" ∧
    ("tfe-abc123".data.all jsonSafe = true →
      (run (worldWith storedToken)).stdout =
        "\x7b\"token\":\"" ++ "tfe-abc123" ++ "\"\x7d" ++ "\n") :=
  C4_token_emitted (worldWith storedToken) "app.terraform.io" "s.vaulttoken" "tfe-abc123" []
    [("data", .map [("token", .str "tfe-abc123")]), ("metadata", .map [])]
    [("token", .str "tfe-abc123")] (by decide) rfl ⟨rfl, by decide, Or.inl rfl⟩ rfl rfl rfl
    (by decide) rfl

/-- C3 as stated fails: with a secret that has no `data` entry, the run for a
well-formed host exits with status 0 but standard output is not empty (a line
describing the missing entry, then a token object with an empty token); and
for a host that `svchost` rejects the run exits with status 1. -/
theorem C3_counterexample :
    (Authenticates worldNoData "s.vaulttoken" ∧
      worldNoData.read "secret/data/tf/app.terraform.io" "s.vaulttoken" = .secret [] ∧
      (∀ m, mapIndex [] "data" ≠ GoValue.map m) ∧
      (run worldNoData).exit = 0 ∧
      (run worldNoData).stdout = "<nil> <nil>\n\x7b\"token\":\"\"\x7d\n" ∧
      (run worldNoData).stdout ≠ "") ∧
    (Authenticates worldNoDataNoHost "s.vaulttoken" ∧
      worldNoDataNoHost.read "secret/data/tf/" "s.vaulttoken" = .secret [] ∧
      (run worldNoDataNoHost).exit = 1) :=
  ⟨⟨⟨rfl, by decide, Or.inl rfl⟩, rfl, (fun m h => by cases h), (by decide), (by decide),
     (by decide)⟩,
   ⟨rfl, by decide, Or.inl rfl⟩, rfl, (by decide)⟩

/-- C3, amended: in a run `get H` with a base path, when authentication
succeeds and the read returns a secret whose `data` entry is missing or is
not a string-keyed map, `readSecretFromVault` returns the empty string and no
error; the run then exits with status 1 if `svchost` rejects `H`, and
otherwise exits with status 0 with nothing on standard error and with
standard output ending in the token object with an empty token when `H` is
its own comparison form, and in the empty object when it is not. -/
theorem C3_no_data_payload (w : World) (H tok : String) (rest : List String)
    (data : List (String × GoValue))
    (hP : vaultBasePath w ≠ "") (hargs : w.args = "get" :: H :: rest)
    (hA : Authenticates w tok)
    (hr : w.read (vaultBasePath w ++ "/" ++ H) tok = .secret data)
    (hd : ∀ m, mapIndex data "data" ≠ .map m) :
    (readSecretFromVault w (vaultBasePath w ++ "/" ++ H)).err = none ∧
    (readSecretFromVault w (vaultBasePath w ++ "/" ++ H)).secret = "" ∧
    (∀ e, w.ForComparison (w.ForDisplay H) = .error e → (run w).exit = 1) ∧
    (w.ForComparison (w.ForDisplay H) = .ok H →
      (run w).exit = 0 ∧ (run w).stderr = "" ∧
      "\x7b\"token\":\"\"\x7d\n".data <:+ (run w).stdout.data) ∧
    (∀ K, w.ForComparison (w.ForDisplay H) = .ok K → K ≠ H →
      (run w).exit = 0 ∧ (run w).stderr = "" ∧
      "\x7b\x7d\n".data <:+ (run w).stdout.data) := by
  have hret := retrieval_no_data w _ tok data hA hr hd
  have he : (readSecretFromVault w (vaultBasePath w ++ "/" ++ H)).err = none := by rw [hret]
  have hsec : (readSecretFromVault w (vaultBasePath w ++ "/" ++ H)).secret = "" := by
    rw [hret]
  refine ⟨he, hsec, fun e hH => ?_, fun hH => ?_, fun K hH hK => ?_⟩
  · rw [run_get_bad_host w H e rest hP hargs he hH]
  · rw [run_get_hit w H rest hP hargs he hH, hsec]
    refine ⟨rfl, rfl, ?_⟩
    refine ⟨(readSecretFromVault w (vaultBasePath w ++ "/" ++ H)).stdout.data, ?_⟩
    simp only [String.data_append, List.append_assoc]
    rfl
  · rw [run_get_miss w H K rest hP hargs he hH hK]
    exact ⟨rfl, rfl, (readSecretFromVault w (vaultBasePath w ++ "/" ++ H)).stdout.data,
      by simp only [String.data_append]⟩

theorem C3_no_data_payload_witness :
    (readSecretFromVault worldNoData ("secret/data/tf" ++ "/" ++ "app.terraform.io")).err
      = none ∧
    (run worldNoData).exit = 0 ∧ (run worldNoData).stderr = "" ∧
    "\x7b\"token\":\"\"\x7d\n".data <:+ (run worldNoData).stdout.data :=
  ⟨(C3_no_data_payload worldNoData "app.terraform.io" "s.vaulttoken" [] [] (by decide) rfl
      ⟨rfl, by decide, Or.inl rfl⟩ rfl (fun m h => by cases h)).1,
   (C3_no_data_payload worldNoData "app.terraform.io" "s.vaulttoken" [] [] (by decide) rfl
      ⟨rfl, by decide, Or.inl rfl⟩ rfl (fun m h => by cases h)).2.2.2.1 rfl⟩

/-- C1: the code does not do what the claim says. With a base path, no token
in the environment and a token helper that returns the empty token without
error, `readSecretFromVault` performs no read but returns a nil error (it
wraps the nil error of the client creation), and the run exits with status 0
after writing a token object with an empty token. -/
theorem C1_empty_token_run :
    vaultBasePath (worldHelper ("", none)) = "secret/data/tf" ∧
    (worldHelper ("", none)).newClient = .ok "" ∧
    (worldHelper ("", none)).helperGet = ("", none) ∧
    readSecretFromVault (worldHelper ("", none)) "secret/data/tf/app.terraform.io" =
      { secret := "", err := none, stdout := "",
        trace := [.readEnvironment, .newClient, .newTokenHelper, .helperGet] } ∧
    run (worldHelper ("", none)) =
      { exit := 0, stdout := "\x7b\"token\":\"\"\x7d\n", stderr := "",
        trace := [.readEnvironment, .newClient, .newTokenHelper, .helperGet] } :=
  ⟨rfl, rfl, rfl, by decide, by decide⟩

/-- C2: the code does not do what the claim says when the `token` entry is
absent. With a `data` map that has no `token` entry, `readSecretFromVault`
returns the text `<nil>` and no error, and the run exits with status 0 after
writing that text as the token; with a `token` entry holding the empty string
the run exits with status 1 as claimed. -/
theorem C2_absent_token_run :
    mapIndex [("username", GoValue.str "terraform")] "token" = GoValue.nil ∧
    readSecretFromVault worldNoTokenEntry "secret/data/tf/app.terraform.io" =
      { secret := "<nil>", err := none, stdout := "",
        trace := [.readEnvironment, .newClient, .setToken "s.vaulttoken",
                  .read "secret/data/tf/app.terraform.io" "s.vaulttoken"] } ∧
    (run worldNoTokenEntry).exit = 0 ∧
    (run worldNoTokenEntry).stdout = "\x7b\"token\":\"\\u003cnil\\u003e\"\x7d\n" ∧
    (run worldBlankToken).exit = 1 :=
  ⟨rfl, by decide, by decide, by decide, by decide⟩

/-- C5: the code does not do what the claim says. When the read fails, the
run exits with status 1 after `readSecretFromVault` has printed a line on
standard output; and when the secret has no `data` entry, the run exits with
status 0 with two lines on standard output. -/
theorem C5_stdout_on_failure :
    (run worldReadFails).exit = 1 ∧
    (run worldReadFails).stdout = "in if err == nil\n" ∧
    (run worldReadFails).stderr =
      "Unable to read secret from Vault: failed to read secret from Vault at " ++
        "secret/data/tf/app.terraform.io\n: connection refused" ∧
    (run worldNoData).exit = 0 ∧
    (run worldNoData).stdout = "<nil> <nil>\n" ++ "\x7b\"token\":\"\"\x7d\n" := by
  decide

end VaultHelper
